import Mathlib

/-!
Shallow embedding of the rabbitfun smart-contract audit tooling
(`smartcontract/audit-backup.py` and `scripts/generate-audit-summary.py`).

External process invocations (`subprocess.run`), the filesystem, and wall-clock
time are modelled as explicit oracle parameters: each tool invocation receives
an outcome value describing what the external process did (completed with an
exit code and captured streams, timed out, or raised), and every function of
the scripts is translated into a pure Lean function of the session data plus
these oracles.  Python dictionaries built by the scripts become structures
whose optional keys are `Option` fields; `dict.get(k, default)` becomes
`Option.getD`.
-/

set_option maxHeartbeats 1000000
set_option maxRecDepth 8192

/-- Python's substring test `needle in hay`. -/
def strContains (hay needle : String) : Bool :=
  decide (needle.data <:+: hay.data)

/-- Python's `str.lower()`, modelled character-wise (`Char.toLower` lowers the
ASCII range, which covers every severity keyword the scripts compare). -/
def strLower (s : String) : String :=
  ⟨s.data.map Char.toLower⟩

/-- Case-insensitive containment as the scripts use it: the haystack is
lowercased (`.lower()`) before the substring test; the needles in the scripts
are lowercase literals. -/
def containsCI (hay needle : String) : Bool :=
  strContains (strLower hay) needle

/-- The four severity buckets of the audit scripts. -/
inductive Bucket where
  | high
  | medium
  | low
  | informational
deriving DecidableEq, Repr

/-- `source_mapping` sub-object of a Slither result element
(only the `filename` key is ever read, at line 328 of audit-backup.py). -/
structure SourceMapping where
  filename : String
deriving DecidableEq, Repr

/-- One entry of a Slither detector's `elements` list.  An absent or empty
(falsy) `source_mapping` is modelled as `none`. -/
structure Element where
  source_mapping : Option SourceMapping
deriving DecidableEq, Repr

/-- One Slither detector result, with exactly the keys the scripts read:
`check`, `impact`, `confidence`, `description`, `elements` and `id`
(the last is named `idStr` here).  Absent keys are `none`. -/
structure Detector where
  check : Option String
  impact : Option String
  confidence : Option String
  description : Option String
  elements : List Element
  idStr : Option String
deriving DecidableEq, Repr

/-- The impact-count dictionary built by `_analyze_impacts`
(audit-backup.py line 217). -/
structure Impacts where
  high : Nat
  medium : Nat
  low : Nat
  informational : Nat
deriving DecidableEq, Repr

/-- `result.get('impact', '').lower()` (audit-backup.py line 220). -/
def impactText (d : Detector) : String :=
  strLower (d.impact.getD "")

/-- The loop body of `_analyze_impacts` (audit-backup.py lines 219-228):
one detector bumps exactly one bucket, `high` first, then `medium`, then
`low`, everything else `informational`. -/
def analyzeStep (acc : Impacts) (d : Detector) : Impacts :=
  let impact := impactText d
  if strContains impact "high" then { acc with high := acc.high + 1 }
  else if strContains impact "medium" then { acc with medium := acc.medium + 1 }
  else if strContains impact "low" then { acc with low := acc.low + 1 }
  else { acc with informational := acc.informational + 1 }

/-- `_analyze_impacts` (audit-backup.py lines 215-230): fold the loop body
over the detector list starting from all-zero counts. -/
def analyze_impacts (results : List Detector) : Impacts :=
  results.foldl analyzeStep { high := 0, medium := 0, low := 0, informational := 0 }

/-- The classification policy exactly as the specification states it:
high if the lowercased severity text contains "high", otherwise medium if it
contains "medium", otherwise low if it contains "low", otherwise
informational (also for an absent severity).  This definition follows the
spec's words and is compared against the code's `analyze_impacts` and the
summary script's bucket filters. -/
def classifySpec (severity : Option String) : Bucket :=
  let s := strLower (severity.getD "")
  if strContains s "high" then Bucket.high
  else if strContains s "medium" then Bucket.medium
  else if strContains s "low" then Bucket.low
  else Bucket.informational

/-- Bump the bucket `b` of an impact-count record by one. -/
def bump (acc : Impacts) : Bucket → Impacts
  | Bucket.high => { acc with high := acc.high + 1 }
  | Bucket.medium => { acc with medium := acc.medium + 1 }
  | Bucket.low => { acc with low := acc.low + 1 }
  | Bucket.informational => { acc with informational := acc.informational + 1 }

/-- Number of detectors the policy puts into bucket `b`. -/
def countBucket (b : Bucket) (l : List Detector) : Nat :=
  l.countP (fun d => classifySpec d.impact == b)

theorem analyzeStep_eq_bump (acc : Impacts) (d : Detector) :
    analyzeStep acc d = bump acc (classifySpec d.impact) := by
  unfold analyzeStep classifySpec impactText
  dsimp only
  split_ifs <;> rfl

theorem foldl_analyzeStep (l : List Detector) (acc : Impacts) :
    List.foldl analyzeStep acc l =
      { high := acc.high + countBucket Bucket.high l,
        medium := acc.medium + countBucket Bucket.medium l,
        low := acc.low + countBucket Bucket.low l,
        informational := acc.informational + countBucket Bucket.informational l } := by
  induction l generalizing acc with
  | nil => simp [countBucket]
  | cons d t ih =>
    rw [List.foldl_cons, analyzeStep_eq_bump, ih]
    cases h : classifySpec d.impact <;>
      simp [bump, countBucket, List.countP_cons, h] <;> omega

theorem analyze_impacts_eq_countBucket (l : List Detector) :
    analyze_impacts l =
      { high := countBucket Bucket.high l,
        medium := countBucket Bucket.medium l,
        low := countBucket Bucket.low l,
        informational := countBucket Bucket.informational l } := by
  unfold analyze_impacts
  rw [foldl_analyzeStep]
  simp

theorem countBucket_sum (l : List Detector) :
    countBucket Bucket.high l + countBucket Bucket.medium l +
      countBucket Bucket.low l + countBucket Bucket.informational l = l.length := by
  induction l with
  | nil => simp [countBucket]
  | cons d t ih =>
    cases h : classifySpec d.impact <;>
      simp [countBucket, List.countP_cons, h] at ih ⊢ <;> omega

/-- `high_impact` list comprehension of generate-audit-summary.py line 31. -/
def high_impact (detectors : List Detector) : List Detector :=
  detectors.filter (fun d => containsCI (d.impact.getD "") "high")

/-- `medium_impact` list comprehension of generate-audit-summary.py line 32. -/
def medium_impact (detectors : List Detector) : List Detector :=
  detectors.filter (fun d => containsCI (d.impact.getD "") "medium")

/-- `low_impact` list comprehension of generate-audit-summary.py line 33. -/
def low_impact (detectors : List Detector) : List Detector :=
  detectors.filter (fun d => containsCI (d.impact.getD "") "low")

/-- `informational` list comprehension of generate-audit-summary.py line 34:
detectors that are members (by value, Python `not in`) of none of the three
other lists. -/
def informational_list (detectors : List Detector) : List Detector :=
  detectors.filter (fun d =>
    decide (d ∉ high_impact detectors) &&
    decide (d ∉ medium_impact detectors) &&
    decide (d ∉ low_impact detectors))

theorem mem_high_impact (detectors : List Detector) (d : Detector) :
    d ∈ high_impact detectors ↔
      d ∈ detectors ∧ containsCI (d.impact.getD "") "high" = true := by
  simp [high_impact, List.mem_filter]

theorem mem_medium_impact (detectors : List Detector) (d : Detector) :
    d ∈ medium_impact detectors ↔
      d ∈ detectors ∧ containsCI (d.impact.getD "") "medium" = true := by
  simp [medium_impact, List.mem_filter]

theorem mem_low_impact (detectors : List Detector) (d : Detector) :
    d ∈ low_impact detectors ↔
      d ∈ detectors ∧ containsCI (d.impact.getD "") "low" = true := by
  simp [low_impact, List.mem_filter]

theorem mem_informational_list (detectors : List Detector) (d : Detector) :
    d ∈ informational_list detectors ↔
      d ∈ detectors ∧ containsCI (d.impact.getD "") "high" = false ∧
        containsCI (d.impact.getD "") "medium" = false ∧
        containsCI (d.impact.getD "") "low" = false := by
  simp only [informational_list, List.mem_filter, Bool.and_eq_true, decide_eq_true_eq,
    mem_high_impact, mem_medium_impact, mem_low_impact, Bool.eq_false_iff, ne_eq]
  constructor
  · rintro ⟨hmem, ⟨h1, h2⟩, h3⟩
    exact ⟨hmem, fun hc => h1 ⟨hmem, hc⟩, fun hc => h2 ⟨hmem, hc⟩, fun hc => h3 ⟨hmem, hc⟩⟩
  · rintro ⟨hmem, h1, h2, h3⟩
    exact ⟨hmem, ⟨fun hc => h1 hc.2, fun hc => h2 hc.2⟩, fun hc => h3 hc.2⟩

/-- The coarse risk assessment emitted by the summary script. -/
inductive Verdict where
  | NONE
  | CRITICAL
  | WARNING
deriving DecidableEq, Repr

/-- One location of a Mythril issue, with the keys the report generator reads
(audit-backup.py line 361). -/
structure MythLocation where
  start_line : Option Nat
  source_map : Option String
deriving DecidableEq, Repr

/-- One Mythril issue.  The scripts read `title`, `severity`, `description`
and `locations`; the raw JSON may also carry a `confidence` value, which is
kept here to state what the report generator does with it (nothing). -/
structure Issue where
  title : Option String
  severity : Option String
  description : Option String
  locations : List MythLocation
  confidence : Option String
deriving DecidableEq, Repr

/-- `high_count` of generate-audit-summary.py line 76: the length of
`high_impact` when a Slither report was parsed, 0 when the name is unbound
(no report, or the parse attempt failed before the lists were built). -/
def summary_high_count (slitherParsed : Option (List Detector)) : Nat :=
  match slitherParsed with
  | some ds => (high_impact ds).length
  | none => 0

/-- `total_mythril_findings` of generate-audit-summary.py lines 57-67: each
Mythril report that parses contributes the length of its `issues` list, a
report whose parse raises contributes nothing (`except: pass`). -/
def summary_mythril_count (parses : List (Option (List Issue))) : Nat :=
  parses.foldl
    (fun acc p => acc + (match p with | some issues => issues.length | none => 0)) 0

/-- The overall-assessment `if`/`elif` chain of generate-audit-summary.py
lines 79-84.  No line is appended (`none`) when no branch fires. -/
def summary_assessment (high_count mythril_count : Nat) : Option Verdict :=
  if high_count == 0 && mythril_count == 0 then some Verdict.NONE
  else if high_count > 0 then some Verdict.CRITICAL
  else if mythril_count > 0 then some Verdict.WARNING
  else none

/-- The verdict `generate_summary` derives from its reports directory,
as a function of the parsed Slither report and the parsed Mythril reports. -/
def generate_summary_verdict (slitherParsed : Option (List Detector))
    (mythParses : List (Option (List Issue))) : Option Verdict :=
  summary_assessment (summary_high_count slitherParsed) (summary_mythril_count mythParses)

/-- Example detector carrying a single "High"-impact Slither finding. -/
def exDetHigh : Detector :=
  { check := some "reentrancy-eth", impact := some "High", confidence := some "Medium",
    description := some "Reentrancy in withdraw", elements := [], idStr := none }

/-- Example detector: the same finding reclassified to "Low". -/
def exDetLow : Detector :=
  { check := some "reentrancy-eth", impact := some "Low", confidence := some "Medium",
    description := some "Reentrancy in withdraw", elements := [], idStr := none }

/-- Example detector whose impact text contains two severity keywords. -/
def exDetHighMedium : Detector :=
  { check := some "odd", impact := some "High Medium", confidence := none,
    description := none, elements := [], idStr := none }

/-- Claim C2, counterexample: the detector whose impact text is "High Medium"
is a member of BOTH the `high_impact` and the `medium_impact` lists built by
generate-audit-summary.py (the comprehensions test each keyword
independently), although the first-match policy of the claim buckets it as
high only. -/
theorem claim_C2_cex :
    classifySpec exDetHighMedium.impact = Bucket.high ∧
    high_impact [exDetHighMedium] = [exDetHighMedium] ∧
    medium_impact [exDetHighMedium] = [exDetHighMedium] := by
  refine ⟨by decide, by decide, by decide⟩

/-- Claim C2 (amended): `_analyze_impacts` follows the first-match substring
policy exactly — its four counts are precisely the numbers of findings the
policy puts in each bucket, with an absent severity landing in
informational.  In generate-audit-summary.py the high/medium/low buckets are
independent case-insensitive substring filters (membership holds exactly when
the keyword occurs, so a finding whose text contains several keywords is in
several buckets there), and the informational bucket holds exactly the
findings whose text contains none of the three keywords. -/
theorem claim_C2 : ∀ (results detectors : List Detector) (d : Detector),
    (analyze_impacts results =
      { high := countBucket Bucket.high results,
        medium := countBucket Bucket.medium results,
        low := countBucket Bucket.low results,
        informational := countBucket Bucket.informational results }) ∧
    (classifySpec none = Bucket.informational) ∧
    (d ∈ high_impact detectors ↔
      d ∈ detectors ∧ containsCI (d.impact.getD "") "high" = true) ∧
    (d ∈ medium_impact detectors ↔
      d ∈ detectors ∧ containsCI (d.impact.getD "") "medium" = true) ∧
    (d ∈ low_impact detectors ↔
      d ∈ detectors ∧ containsCI (d.impact.getD "") "low" = true) ∧
    (d ∈ informational_list detectors ↔
      d ∈ detectors ∧ containsCI (d.impact.getD "") "high" = false ∧
        containsCI (d.impact.getD "") "medium" = false ∧
        containsCI (d.impact.getD "") "low" = false) := by
  intro results detectors d
  exact ⟨analyze_impacts_eq_countBucket results, by decide,
    mem_high_impact detectors d, mem_medium_impact detectors d,
    mem_low_impact detectors d, mem_informational_list detectors d⟩

/-- Claim C10: the four bucket counts of `_analyze_impacts` partition the
input — their sum is the length of the detector list, each finding is counted
in exactly one bucket (the counts are those of the first-match policy), and
"high" wins whenever the severity text also contains other keywords. -/
theorem claim_C10 : ∀ (results : List Detector),
    ((analyze_impacts results).high + (analyze_impacts results).medium +
      (analyze_impacts results).low + (analyze_impacts results).informational =
      results.length) ∧
    (∀ d : Detector, containsCI (d.impact.getD "") "high" = true →
      classifySpec d.impact = Bucket.high) := by
  intro results
  constructor
  · rw [analyze_impacts_eq_countBucket]
    exact countBucket_sum results
  · intro d h
    unfold classifySpec
    unfold containsCI at h
    simp [h]

/-- Claim C10, witness: the partition equation and the high-precedence rule
evaluated on a concrete three-finding list and on the two-keyword finding. -/
theorem claim_C10_witness :
    (analyze_impacts [exDetHigh, exDetLow, exDetHighMedium]).high +
      (analyze_impacts [exDetHigh, exDetLow, exDetHighMedium]).medium +
      (analyze_impacts [exDetHigh, exDetLow, exDetHighMedium]).low +
      (analyze_impacts [exDetHigh, exDetLow, exDetHighMedium]).informational = 3 ∧
    classifySpec exDetHighMedium.impact = Bucket.high :=
  ⟨(claim_C10 [exDetHigh, exDetLow, exDetHighMedium]).1,
    (claim_C10 []).2 exDetHighMedium (by decide)⟩

/-- Claim C1, counterexample: a session whose only finding is one Slither
detector with impact "Low" (findings non-empty, no Mythril issues) is
assessed "No critical security issues detected" (NONE), not WARNING, because
the overall assessment of generate-audit-summary.py looks only at the Slither
high count and the Mythril issue count. -/
theorem claim_C1_cex :
    generate_summary_verdict (some [exDetLow]) [] = some Verdict.NONE ∧
    some Verdict.NONE ≠ some Verdict.WARNING := by
  refine ⟨by decide, by decide⟩

/-- Claim C1 (amended): the verdict is NONE exactly when the Slither
high-impact count is 0 and the Mythril issue count is 0, CRITICAL exactly
when the high count is positive, and WARNING exactly when the high count is 0
but Mythril issues exist (non-high Slither findings alone never produce
WARNING); some assessment line is always produced.  A session with exactly
one Slither finding of impact "High" yields CRITICAL, and the same session
with that finding reclassified to "Low" yields NONE. -/
theorem claim_C1 : ∀ (sp : Option (List Detector)) (mp : List (Option (List Issue))),
    (generate_summary_verdict sp mp = some Verdict.NONE ↔
      summary_high_count sp = 0 ∧ summary_mythril_count mp = 0) ∧
    (generate_summary_verdict sp mp = some Verdict.CRITICAL ↔
      0 < summary_high_count sp) ∧
    (generate_summary_verdict sp mp = some Verdict.WARNING ↔
      summary_high_count sp = 0 ∧ 0 < summary_mythril_count mp) ∧
    generate_summary_verdict sp mp ≠ none ∧
    generate_summary_verdict (some [exDetHigh]) [] = some Verdict.CRITICAL ∧
    generate_summary_verdict (some [exDetLow]) [] = some Verdict.NONE := by
  intro sp mp
  refine ⟨?_, ?_, ?_, ?_, by decide, by decide⟩ <;>
    · unfold generate_summary_verdict summary_assessment
      split_ifs with h1 h2 h3 <;> simp_all <;> omega

/-- Python's `str.endswith`. -/
def strEndsWith (s suf : String) : Bool :=
  decide (suf.data <:+ s.data)

/-- Python's `str.startswith`. -/
def strStartsWith (s pre : String) : Bool :=
  decide (pre.data <+: s.data)

/-- Lexicographic comparison of character lists by code point, the order
`sorted()` uses on POSIX path strings. -/
def charListLe : List Char → List Char → Bool
  | [], _ => true
  | _ :: _, [] => false
  | a :: as, b :: bs => if a < b then true else if b < a then false else charListLe as bs

/-- Lexicographic order on path strings. -/
def strLe (a b : String) : Prop := charListLe a.data b.data = true

instance : DecidableRel strLe :=
  fun a b => inferInstanceAs (Decidable (charListLe a.data b.data = true))

theorem charListLe_total : ∀ as bs, charListLe as bs = true ∨ charListLe bs as = true := by
  intro as
  induction as with
  | nil => intro bs; left; rfl
  | cons a as ih =>
    intro bs
    cases bs with
    | nil => right; rfl
    | cons b bs =>
      rcases lt_trichotomy a b with h | rfl | h
      · left; simp [charListLe, h]
      · rcases ih bs with h2 | h2
        · left; simp [charListLe, h2]
        · right; simp [charListLe, h2]
      · right; simp [charListLe, h]

theorem charListLe_trans : ∀ as bs cs, charListLe as bs = true → charListLe bs cs = true →
    charListLe as cs = true := by
  intro as
  induction as with
  | nil => intro bs cs _ _; rfl
  | cons a as ih =>
    intro bs cs h1 h2
    cases bs with
    | nil => simp [charListLe] at h1
    | cons b bs =>
      cases cs with
      | nil => simp [charListLe] at h2
      | cons c cs =>
        simp only [charListLe] at h1 h2 ⊢
        rcases lt_trichotomy a b with hab | rfl | hab
        · rcases lt_trichotomy b c with hbc | rfl | hbc
          · simp [lt_trans hab hbc]
          · simp [hab]
          · simp [lt_asymm hbc, hbc] at h2
        · rcases lt_trichotomy a c with hac | rfl | hac
          · simp [hac]
          · simp [lt_irrefl] at h1 h2 ⊢
            exact ih _ _ h1 h2
          · simp [lt_asymm hac, hac] at h2
        · simp [lt_asymm hab, hab] at h1

instance : IsTotal String strLe := ⟨fun a b => charListLe_total a.data b.data⟩

instance : IsTrans String strLe := ⟨fun a b c => charListLe_trans a.data b.data c.data⟩

/-- The final path component (`pathlib.Path.name`): the text after the last
slash. -/
def fileNameAux : List Char → List Char → List Char
  | [], cur => cur.reverse
  | c :: rest, cur => if c = '/' then fileNameAux rest [] else fileNameAux rest (c :: cur)

/-- `Path.name` of a POSIX path string. -/
def fileName (p : String) : String :=
  ⟨fileNameAux p.data []⟩

/-- `Path.stem`: the file name with its final dot-suffix removed (the name is
returned whole when it has no dot). -/
def pathStem (p : String) : String :=
  let r := (fileName p).data.reverse
  if r.contains '.' then ⟨((r.dropWhile (fun c => c != '.')).drop 1).reverse⟩
  else ⟨r.reverse⟩

/-- `find_contract_files` (audit-backup.py lines 88-102) as a function of the
directory tree listing: the `'**/*.sol'` glob keeps the files with the `.sol`
extension, the loop drops every path containing `node_modules` and every file
whose name starts with `Test`, and `sorted(...)` orders the survivors
lexicographically (modelled by a stable insertion sort, which agrees with
Python's stable `sorted` on a total order). -/
def find_contract_files (fs : List String) : List String :=
  let contract_files := fs.filter (fun p => strEndsWith p ".sol")
  let filtered_files := contract_files.filter (fun p =>
    !(strContains p "node_modules") && !(strStartsWith (fileName p) "Test"))
  List.insertionSort strLe filtered_files

/-- Claim C4: discovery returns exactly the `.sol` files outside
`node_modules` whose name does not start with `Test`, lexicographically
sorted; on a directory holding `TokenA.sol` and `TestHelper.sol` only
`TokenA.sol` survives. -/
theorem claim_C4 : ∀ (fs : List String) (p : String),
    (p ∈ find_contract_files fs ↔
      p ∈ fs ∧ strEndsWith p ".sol" = true ∧ strContains p "node_modules" = false ∧
        strStartsWith (fileName p) "Test" = false) ∧
    List.Sorted strLe (find_contract_files fs) ∧
    find_contract_files ["contracts/TokenA.sol", "contracts/TestHelper.sol"] =
      ["contracts/TokenA.sol"] := by
  intro fs p
  refine ⟨?_, ?_, by decide⟩
  · unfold find_contract_files
    simp only [List.mem_insertionSort, List.mem_filter, Bool.and_eq_true, Bool.not_eq_true']
    tauto
  · exact List.sorted_insertionSort strLe _

/-- What the external process of one tool invocation did: it completed with
an exit code, captured streams, a flag telling whether the expected output
file exists, and the result of parsing that file; or `subprocess.run` raised
`TimeoutExpired`; or some other exception was raised. -/
inductive SlitherOutcome where
  | completed (returncode : Int) (stdout stderr : String) (fileExists : Bool)
      (parsed : Except String (List Detector))
  | timedOut
  | raised (msg : String)

/-- The dictionary `run_slither_analysis` returns (audit-backup.py
lines 104-156). -/
structure SlitherResult where
  success : Bool
  stdout : Option String
  stderr : Option String
  output_file : Option String
  timestamp : Option String
  findings : Option Nat
  impacts : Option Impacts
  error : Option String
deriving DecidableEq, Repr

/-- Report file name used by the Slither run (audit-backup.py line 109). -/
def slitherOutputFileName (ts : String) : String :=
  "slither_report_" ++ ts ++ ".json"

/-- `run_slither_analysis` (audit-backup.py lines 104-156): build the result
dictionary from the process outcome; on exit code 0 with an existing output
file the file is parsed, and a parse exception falls into the generic
`except` clause which REPLACES the dictionary by a bare failure record; a
timeout likewise replaces it by `success=False, error='timeout'`. -/
def run_slither_analysis (ts : String) (o : SlitherOutcome) : SlitherResult :=
  match o with
  | SlitherOutcome.completed rc out err fe parsed =>
    let base : SlitherResult :=
      { success := rc == 0, stdout := some out, stderr := some err,
        output_file := if fe then some (slitherOutputFileName ts) else none,
        timestamp := some ts, findings := none, impacts := none, error := none }
    if rc == 0 && fe then
      match parsed with
      | Except.ok ds =>
        { base with findings := some ds.length, impacts := some (analyze_impacts ds) }
      | Except.error e =>
        { success := false, stdout := none, stderr := none, output_file := none,
          timestamp := none, findings := none, impacts := none, error := some e }
    else base
  | SlitherOutcome.timedOut =>
    { success := false, stdout := none, stderr := none, output_file := none,
      timestamp := none, findings := none, impacts := none, error := some "timeout" }
  | SlitherOutcome.raised e =>
    { success := false, stdout := none, stderr := none, output_file := none,
      timestamp := none, findings := none, impacts := none, error := some e }

/-- Process outcome for one Mythril invocation. -/
inductive MythOutcome where
  | completed (returncode : Int) (stdout stderr : String) (fileExists : Bool)
      (parsed : Except String (List Issue))
  | timedOut
  | raised (msg : String)

/-- The dictionary `run_mythril_analysis` returns (audit-backup.py
lines 158-213). -/
structure MythResult where
  success : Bool
  stdout : Option String
  stderr : Option String
  output_file : Option String
  timestamp : Option String
  contract : Option String
  findings : Option Nat
  issues : List Issue
  error : Option String
deriving DecidableEq, Repr

/-- Report file name used by a Mythril run (audit-backup.py line 162). -/
def mythrilOutputFileName (stem ts : String) : String :=
  "mythril_report_" ++ stem ++ "_" ++ ts ++ ".json"

/-- `run_mythril_analysis` (audit-backup.py lines 158-213), with the same
shape as the Slither runner: parse failures and timeouts replace the result
dictionary by a bare failure record that still carries the contract name. -/
def run_mythril_analysis (ts contractName stem : String) (o : MythOutcome) : MythResult :=
  match o with
  | MythOutcome.completed rc out err fe parsed =>
    let base : MythResult :=
      { success := rc == 0, stdout := some out, stderr := some err,
        output_file := if fe then some (mythrilOutputFileName stem ts) else none,
        timestamp := some ts, contract := some contractName,
        findings := none, issues := [], error := none }
    if rc == 0 && fe then
      match parsed with
      | Except.ok issues =>
        { base with findings := some issues.length, issues := issues }
      | Except.error e =>
        { success := false, stdout := none, stderr := none, output_file := none,
          timestamp := none, contract := some contractName,
          findings := none, issues := [], error := some e }
    else base
  | MythOutcome.timedOut =>
    { success := false, stdout := none, stderr := none, output_file := none,
      timestamp := none, contract := some contractName,
      findings := none, issues := [], error := some "timeout" }
  | MythOutcome.raised e =>
    { success := false, stdout := none, stderr := none, output_file := none,
      timestamp := none, contract := some contractName,
      findings := none, issues := [], error := some e }

/-- Process outcome for one gas-analysis invocation (no structured output
file is parsed; the script writes the raw streams itself). -/
inductive GasOutcome where
  | completed (returncode : Int) (stdout stderr : String)
  | timedOut
  | raised (msg : String)

/-- The dictionary `run_gas_analysis` returns (audit-backup.py
lines 232-276). -/
structure GasResult where
  success : Bool
  output_file : Option String
  contract : Option String
  error : Option String
deriving DecidableEq, Repr

/-- Report file name used by a gas run (audit-backup.py line 236). -/
def gasOutputFileName (stem ts : String) : String :=
  "gas_analysis_" ++ stem ++ "_" ++ ts ++ ".txt"

/-- A row of 50 equals signs, `"=" * 50`. -/
def eqBanner : String :=
  ⟨List.replicate 50 '='⟩

/-- The text `run_gas_analysis` writes to its report file (audit-backup.py
lines 249-256). -/
def gasReportContent (contractName now stdout stderr : String) : String :=
  "Gas Analysis Report for " ++ contractName ++ "\n" ++
  "Generated: " ++ now ++ "\n" ++
  eqBanner ++ "\n\n" ++
  "STDOUT:\n" ++ stdout ++ "\nSTDERR:\n" ++ stderr

/-- `run_gas_analysis` (audit-backup.py lines 232-276), returning the result
dictionary together with the list of (file name, content) pairs it persisted.
The report file is written inside the `try` block after `subprocess.run`
returns, so a timeout or exception leaves nothing on disk. -/
def run_gas_analysis (ts now contractName stem : String) (o : GasOutcome) :
    GasResult × List (String × String) :=
  match o with
  | GasOutcome.completed rc out err =>
    ({ success := rc == 0, output_file := some (gasOutputFileName stem ts),
       contract := some contractName, error := none },
     [(gasOutputFileName stem ts, gasReportContent contractName now out err)])
  | GasOutcome.timedOut =>
    ({ success := false, output_file := none, contract := some contractName,
       error := some "timeout" }, [])
  | GasOutcome.raised e =>
    ({ success := false, output_file := none, contract := some contractName,
       error := some e }, [])

/-- Outcome of one `<tool> --version` probe in `check_prerequisites`:
the probe completed with an exit code and a first stdout line, or it raised
`TimeoutExpired`/`FileNotFoundError` (tool absent). -/
inductive ToolCheck where
  | version (returncode : Int) (stdout : String)
  | unavailable

/-- Whether a probe outcome counts the tool as installed
(audit-backup.py lines 68-78: exit code 0, no exception). -/
def toolOk : ToolCheck → Bool
  | ToolCheck.version rc _ => rc == 0
  | ToolCheck.unavailable => false

/-- Probe outcomes for the three required tools, in the order the script
iterates them. -/
structure Prereqs where
  slither : ToolCheck
  myth : ToolCheck
  solc : ToolCheck

/-- The `missing_tools` list of `check_prerequisites` (audit-backup.py
lines 66-78). -/
def missing_tools (p : Prereqs) : List String :=
  (if toolOk p.slither then [] else ["slither"]) ++
  (if toolOk p.myth then [] else ["myth"]) ++
  (if toolOk p.solc then [] else ["solc"])

/-- `check_prerequisites` (audit-backup.py lines 56-86): succeeds exactly
when `missing_tools` stays empty. -/
def check_prerequisites (p : Prereqs) : Bool :=
  (missing_tools p).isEmpty

/-- Concatenation of a list of written fragments, in write order. -/
def concatStrings : List String → String
  | [] => ""
  | s :: rest => s ++ concatStrings rest

/-- `enumerate(l, i)`. -/
def enumFrom {α : Type} (i : Nat) : List α → List (Nat × α)
  | [] => []
  | a :: as => (i, a) :: enumFrom (i + 1) as

/-- One affected-file line of a Slither finding (audit-backup.py line 328);
an element without a truthy `source_mapping` writes nothing. -/
def renderSlitherElement (e : Element) : String :=
  match e.source_mapping with
  | some sm => "- `" ++ sm.filename ++ "`\n"
  | none => ""

/-- One rendered Slither finding (audit-backup.py lines 318-332). -/
def renderSlitherFinding (i : Nat) (d : Detector) : String :=
  "#### " ++ toString i ++ ". " ++ d.check.getD "Unknown" ++ "\n\n" ++
  "**Impact:** " ++ d.impact.getD "Unknown" ++ "\n" ++
  "**Confidence:** " ++ d.confidence.getD "Unknown" ++ "\n" ++
  "**Description:** " ++ d.description.getD "No description" ++ "\n\n" ++
  (if d.elements.isEmpty then ""
   else "**Affected Files:**\n" ++
     concatStrings ((d.elements.take 3).map renderSlitherElement) ++ "\n") ++
  (if (d.idStr.getD "") == "" then ""
   else "**Detector ID:** `" ++ d.idStr.getD "" ++ "`\n\n")

/-- The Slither findings actually rendered: the first 10 detectors
(`detectors[:10]`, audit-backup.py line 318), numbered from 1. -/
def renderedSlitherFindings (detectors : List Detector) : List String :=
  (enumFrom 1 (detectors.take 10)).map (fun p => renderSlitherFinding p.1 p.2)

/-- The detailed-findings block (audit-backup.py lines 316-334). -/
def renderSlitherDetailed (detectors : List Detector) : String :=
  if detectors.isEmpty then "No security issues found by Slither.\n\n"
  else "### Detailed Findings\n\n" ++ concatStrings (renderedSlitherFindings detectors)

/-- The Slither section of the comprehensive report (audit-backup.py
lines 306-338).  `fileData` is the parsed content of the Slither JSON file
when it exists (the report generator re-reads it). -/
def renderSlitherSection (sr : SlitherResult) (fileData : Option (List Detector)) : String :=
  "## Slither Static Analysis Results\n\n" ++
  (if sr.success then
    "✅ Slither analysis completed successfully\n\n" ++
    (match sr.output_file, fileData with
     | some _, some ds => renderSlitherDetailed ds
     | _, _ => "")
   else
    "❌ Slither analysis failed\n\n" ++
    (if (sr.error.getD "") == "" then "" else "Error: " ++ sr.error.getD "" ++ "\n\n"))

/-- One rendered location line of a Mythril issue (audit-backup.py
line 361): `loc.get('start_line', 'Unknown')` and
`loc.get('source_map', 'Unknown')`. -/
def renderMythLocation (loc : MythLocation) : String :=
  "- Line " ++ (loc.start_line.map toString).getD "Unknown" ++
  " in " ++ loc.source_map.getD "Unknown" ++ "\n"

/-- One rendered Mythril issue (audit-backup.py lines 354-362).  Note: the
`severity`, `description` and `locations` keys are rendered; the raw issue's
`confidence` is never read. -/
def renderMythrilIssue (i : Nat) (iss : Issue) : String :=
  "#### " ++ toString i ++ ". " ++ iss.title.getD "Unknown Issue" ++ "\n\n" ++
  "**Severity:** " ++ iss.severity.getD "Unknown" ++ "\n" ++
  "**Description:** " ++ iss.description.getD "No description" ++ "\n\n" ++
  (if iss.locations.isEmpty then ""
   else "**Locations:**\n" ++ concatStrings (iss.locations.map renderMythLocation) ++ "\n")

/-- The Mythril issues actually rendered for one result: the first 5
(`issues[:5]`, audit-backup.py line 353), numbered from 1. -/
def renderedMythrilIssues (r : MythResult) : List String :=
  (enumFrom 1 (r.issues.take 5)).map (fun p => renderMythrilIssue p.1 p.2)

/-- One per-contract Mythril section (audit-backup.py lines 344-368). -/
def renderMythrilResult (r : MythResult) : String :=
  "### " ++ r.contract.getD "Unknown" ++ "\n\n" ++
  (if r.success then
    "✅ Analysis completed successfully\n\n" ++
    (if r.issues.isEmpty then "No security issues found by Mythril.\n\n"
     else concatStrings (renderedMythrilIssues r))
   else
    "❌ Analysis failed\n\n" ++
    (if (r.error.getD "") == "" then "" else "Error: " ++ r.error.getD "" ++ "\n\n"))

/-- The Mythril block of the report (audit-backup.py lines 341-368): the
heading, then one section per result when the list is non-empty. -/
def renderMythrilSection (mres : List MythResult) : String :=
  "## Mythril Symbolic Analysis Results\n\n" ++
  (if mres.isEmpty then "" else concatStrings (mres.map renderMythrilResult))

/-- One per-contract gas section (audit-backup.py lines 374-383). -/
def renderGasResult (r : GasResult) : String :=
  "### " ++ r.contract.getD "Unknown" ++ "\n\n" ++
  (if r.success then
    "✅ Gas analysis completed successfully\n\n" ++
    (if (r.output_file.getD "") == "" then ""
     else "Detailed report: `" ++ r.output_file.getD "" ++ "`\n\n")
   else "❌ Gas analysis failed\n\n")

/-- `sum(r.get('findings', 0) for r in mythril_results)` (audit-backup.py
line 293). -/
def sumFindings (mres : List MythResult) : Nat :=
  mres.foldl (fun acc r => acc + r.findings.getD 0) 0

/-- The executive summary block (audit-backup.py lines 290-303); the impact
dictionary is iterated in its fixed insertion order high, medium, low,
informational, and `impact.title()` capitalises the key. -/
def renderExecSummary (sr : SlitherResult) (mres : List MythResult)
    (contractsCount : Nat) : String :=
  "## Executive Summary\n\n" ++
  "- **Total Slither Findings:** " ++ toString (sr.findings.getD 0) ++ "\n" ++
  "- **Total Mythril Findings:** " ++ toString (sumFindings mres) ++ "\n" ++
  "- **Contracts Analyzed:** " ++ toString contractsCount ++ "\n\n" ++
  (match sr.impacts with
   | some im =>
     "### Slither Impact Levels\n\n" ++
     "- **High:** " ++ toString im.high ++ "\n" ++
     "- **Medium:** " ++ toString im.medium ++ "\n" ++
     "- **Low:** " ++ toString im.low ++ "\n" ++
     "- **Informational:** " ++ toString im.informational ++ "\n" ++ "\n"
   | none => "")

/-- The static recommendations block (audit-backup.py lines 386-399). -/
def reportRecsText : String :=
  "## Security Recommendations\n\n" ++
  "### High Priority\n\n" ++
  "1. Review all high-impact findings from Slither\n" ++
  "2. Address any critical security issues found by Mythril\n" ++
  "3. Implement proper access controls if missing\n\n" ++
  "### Medium Priority\n\n" ++
  "1. Optimize gas usage for frequently called functions\n" ++
  "2. Review and improve code documentation\n" ++
  "3. Add more comprehensive test coverage\n\n" ++
  "### Low Priority\n\n" ++
  "1. Address code style and naming convention issues\n" ++
  "2. Optimize for readability and maintainability\n\n"

/-- The static next-steps and footer block (audit-backup.py lines 402-410). -/
def reportNextStepsText : String :=
  "## Next Steps\n\n" ++
  "1. Review all findings in detail\n" ++
  "2. Implement fixes for identified issues\n" ++
  "3. Re-run analysis after fixes\n" ++
  "4. Consider third-party professional audit\n" ++
  "5. Deploy to testnet for thorough testing\n\n" ++
  "---\n" ++
  "*This report was generated automatically using Slither and Mythril static analysis tools.*\n"

/-- The fixed text before the embedded generation time
(audit-backup.py lines 285-286). -/
def reportHeaderPre : String :=
  "# Rabbit Launchpad Smart Contract Audit Report\n\n" ++ "**Generated:** "

/-- Everything the report writes after the generation time: the session
timestamp line and all content blocks (audit-backup.py lines 287-410). -/
def renderReportBody (ts : String) (contractsCount : Nat) (sr : SlitherResult)
    (fileData : Option (List Detector)) (mres : List MythResult)
    (gres : List GasResult) : String :=
  "\n" ++ "**Timestamp:** " ++ ts ++ "\n\n" ++
  renderExecSummary sr mres contractsCount ++
  renderSlitherSection sr fileData ++
  renderMythrilSection mres ++
  "## Gas Analysis Results\n\n" ++
  (if gres.isEmpty then "" else concatStrings (gres.map renderGasResult)) ++
  reportRecsText ++
  reportNextStepsText

/-- `generate_comprehensive_report` (audit-backup.py lines 278-413) as the
text it writes: a function of the wall-clock time `now`, the session
timestamp and the session data (the Slither result with its re-read file
content, the Mythril results, the gas results, and the number of contracts
`find_contract_files` returns at reporting time). -/
def generate_comprehensive_report (now ts : String) (contractsCount : Nat)
    (sr : SlitherResult) (fileData : Option (List Detector))
    (mres : List MythResult) (gres : List GasResult) : String :=
  reportHeaderPre ++ now ++
    renderReportBody ts contractsCount sr fileData mres gres

/-- The content of the Slither JSON output file as the report generator
re-reads it: present exactly when the tool left a parseable file behind. -/
def slitherFileData : SlitherOutcome → Option (List Detector)
  | SlitherOutcome.completed _ _ _ fileExists parsed =>
    match fileExists, parsed with
    | true, Except.ok ds => some ds
    | _, _ => none
  | _ => none

/-- The result dictionary of `audit_contracts` (audit-backup.py
lines 415-476), with the rendered report text in place of the report path. -/
structure AuditRun where
  success : Bool
  error : Option String
  timestamp : Option String
  contracts_analyzed : Nat
  slither_results : Option SlitherResult
  mythril_results : List MythResult
  gas_results : List GasResult
  reportText : Option String
deriving DecidableEq, Repr

/-- `audit_contracts` (audit-backup.py lines 415-476) on the default
directory scan: prerequisite failure and an empty contract list return early
with an error; otherwise Slither runs once, Mythril and gas analysis run per
discovered contract in order (when enabled), and the comprehensive report is
generated from the collected results. -/
def audit_contracts (ts now : String) (p : Prereqs) (fs : List String)
    (so : SlitherOutcome) (mo : String → MythOutcome) (go : String → GasOutcome)
    (runMythrilFlag runGasFlag : Bool) : AuditRun :=
  if !check_prerequisites p then
    { success := false, error := some "prerequisites_failed", timestamp := none,
      contracts_analyzed := 0, slither_results := none, mythril_results := [],
      gas_results := [], reportText := none }
  else
    let contract_files := find_contract_files fs
    if contract_files.isEmpty then
      { success := false, error := some "no_contracts_found", timestamp := none,
        contracts_analyzed := 0, slither_results := none, mythril_results := [],
        gas_results := [], reportText := none }
    else
      let sr := run_slither_analysis ts so
      let mres := if runMythrilFlag then
          contract_files.map (fun c => run_mythril_analysis ts (fileName c) (pathStem c) (mo c))
        else []
      let gres := if runGasFlag then
          contract_files.map (fun c => (run_gas_analysis ts now (fileName c) (pathStem c) (go c)).1)
        else []
      { success := true, error := none, timestamp := some ts,
        contracts_analyzed := contract_files.length,
        slither_results := some sr, mythril_results := mres, gas_results := gres,
        reportText := some (generate_comprehensive_report now ts contract_files.length
          sr (slitherFileData so) mres gres) }

/-- The process exit code `main` derives from the audit result
(audit-backup.py lines 527-539). -/
def main_exit (r : AuditRun) : Nat :=
  if r.success then 0 else 1

theorem isInfix_extend_left {α : Type} {l m : List α} (a : List α)
    (h : l <:+: m) : l <:+: a ++ m :=
  h.trans (by simpa using List.infix_append a m [])

theorem isInfix_extend_right {α : Type} {l m : List α} (b : List α)
    (h : l <:+: m) : l <:+: m ++ b :=
  h.trans (by simpa using List.infix_append [] m b)

theorem strContains_of_isInfix {hay needle : String}
    (h : needle.data <:+: hay.data) : strContains hay needle = true :=
  decide_eq_true h

theorem mem_concatStrings_isInfix : ∀ (l : List String) (s : String),
    s ∈ l → s.data <:+: (concatStrings l).data := by
  intro l
  induction l with
  | nil => intro s hs; simp at hs
  | cons a t ih =>
    intro s hs
    rcases List.mem_cons.mp hs with rfl | hmem
    · simp only [concatStrings, String.data_append]
      exact isInfix_extend_right _ (List.infix_refl _)
    · simp only [concatStrings, String.data_append]
      exact isInfix_extend_left _ (ih s hmem)

/-- Claim C9: report rendering is a pure function of the session data, and
the wall-clock time appears in exactly one slot — there are a prefix and a
suffix, depending only on the session data, such that every rendering is
that prefix, the generation time, then that suffix.  Two runs over identical
session data therefore differ at most in the embedded timestamp field. -/
theorem claim_C9 : ∀ (ts : String) (contractsCount : Nat) (sr : SlitherResult)
    (fileData : Option (List Detector)) (mres : List MythResult) (gres : List GasResult),
    ∃ pre post : String, ∀ now : String,
      generate_comprehensive_report now ts contractsCount sr fileData mres gres =
        pre ++ now ++ post :=
  fun ts contractsCount sr fileData mres gres =>
    ⟨reportHeaderPre, renderReportBody ts contractsCount sr fileData mres gres,
      fun _ => rfl⟩

/-- Example prerequisite probes: slither and solc respond, myth is absent. -/
def exPrereqsPartial : Prereqs :=
  { slither := ToolCheck.version 0 "slither 0.10.0",
    myth := ToolCheck.unavailable,
    solc := ToolCheck.version 0 "solc 0.8.19" }

/-- Example prerequisite probes with all three tools responding. -/
def exPrereqsOk : Prereqs :=
  { slither := ToolCheck.version 0 "slither 0.10.0",
    myth := ToolCheck.version 0 "myth 0.24",
    solc := ToolCheck.version 0 "solc 0.8.19" }

/-- Example directory listing with two contracts. -/
def exFs : List String :=
  ["contracts/TokenB.sol", "contracts/TokenA.sol"]

/-- Example Slither outcome. -/
def exSo : SlitherOutcome :=
  SlitherOutcome.completed 0 "" "" true (Except.ok [exDetHigh])

/-- Example Mythril oracle: the run on TokenA times out, every other one
completes cleanly with no issues. -/
def exMoTimeout : String → MythOutcome :=
  fun c => if c == "contracts/TokenA.sol" then MythOutcome.timedOut
    else MythOutcome.completed 0 "" "" true (Except.ok [])

/-- Example gas oracle: every run completes. -/
def exGo : String → GasOutcome :=
  fun _ => GasOutcome.completed 0 "calls" ""

/-- Claim C8, counterexample: with slither and solc present and only myth
missing, `check_prerequisites` fails, `audit_contracts` aborts the whole
session with `prerequisites_failed`, and the exit code is 1 — not the
claimed per-tool degradation with exit code 0. -/
theorem claim_C8_cex :
    check_prerequisites exPrereqsPartial = false ∧
    (audit_contracts "20250101_000000" "now" exPrereqsPartial exFs exSo exMoTimeout exGo
      true true).success = false ∧
    (audit_contracts "20250101_000000" "now" exPrereqsPartial exFs exSo exMoTimeout exGo
      true true).error = some "prerequisites_failed" ∧
    main_exit (audit_contracts "20250101_000000" "now" exPrereqsPartial exFs exSo
      exMoTimeout exGo true true) = 1 := by
  refine ⟨by decide, by decide, by decide, by decide⟩

/-- Claim C8 (amended): a missing prerequisite tool is fatal whenever ANY of
the three required tools (slither, myth, solc) is absent or fails its version
probe — `check_prerequisites` succeeds exactly when all three respond with
exit code 0, and any failure makes `audit_contracts` return
`prerequisites_failed` with exit code 1 before a single analyzer runs. -/
theorem claim_C8 : ∀ (p : Prereqs) (ts now : String) (fs : List String)
    (so : SlitherOutcome) (mo : String → MythOutcome) (go : String → GasOutcome)
    (rm rg : Bool),
    (check_prerequisites p = true ↔
      toolOk p.slither = true ∧ toolOk p.myth = true ∧ toolOk p.solc = true) ∧
    (check_prerequisites p = false →
      (audit_contracts ts now p fs so mo go rm rg).success = false ∧
      (audit_contracts ts now p fs so mo go rm rg).error = some "prerequisites_failed" ∧
      main_exit (audit_contracts ts now p fs so mo go rm rg) = 1) := by
  intro p ts now fs so mo go rm rg
  constructor
  · cases h1 : toolOk p.slither <;> cases h2 : toolOk p.myth <;> cases h3 : toolOk p.solc <;>
      simp [check_prerequisites, missing_tools, h1, h2, h3]
  · intro h
    simp [audit_contracts, h, main_exit]

/-- Claim C8, witness: the amended theorem applied to the partial-prereq
session, whose probe failure is discharged by evaluation. -/
theorem claim_C8_witness :
    (audit_contracts "t" "n" exPrereqsPartial exFs exSo exMoTimeout exGo true true).success
      = false ∧
    main_exit (audit_contracts "t" "n" exPrereqsPartial exFs exSo exMoTimeout exGo
      true true) = 1 :=
  ⟨((claim_C8 exPrereqsPartial "t" "n" exFs exSo exMoTimeout exGo true true).2
      (by decide)).1,
   ((claim_C8 exPrereqsPartial "t" "n" exFs exSo exMoTimeout exGo true true).2
      (by decide)).2.2⟩

/-- Claim C6, counterexample: a gas-analysis invocation that times out
persists NO file at all (the report file is written inside the `try` block,
after `subprocess.run` returns), and a timed-out Slither run records no
output file either — contradicting "always persists raw output ...
regardless of success". -/
theorem claim_C6_cex :
    (run_gas_analysis "20250101_000000" "2025-01-01 00:00:00" "TokenA.sol" "TokenA"
      GasOutcome.timedOut).2 = [] ∧
    (run_gas_analysis "20250101_000000" "2025-01-01 00:00:00" "TokenA.sol" "TokenA"
      GasOutcome.timedOut).1.error = some "timeout" ∧
    (run_slither_analysis "20250101_000000" SlitherOutcome.timedOut).output_file = none := by
  refine ⟨rfl, rfl, rfl⟩

/-- Claim C6 (amended): only the gas-analysis invoker persists raw output
itself, and only when the external process completes (with any exit code):
it then writes exactly one file whose name is keyed by the tool
(`gas_analysis`), the contract stem and the session timestamp.  A timed-out
or exception-raising gas invocation persists nothing.  The Slither and
Mythril JSON files are written by the external tools to names keyed by tool,
contract stem and timestamp; the script records those paths only when the
files exist. -/
theorem claim_C6 : ∀ (ts now contractName stem out err e : String) (rc : Int),
    ((run_gas_analysis ts now contractName stem (GasOutcome.completed rc out err)).2 =
      [(gasOutputFileName stem ts, gasReportContent contractName now out err)]) ∧
    strContains (gasOutputFileName stem ts) "gas_analysis" = true ∧
    strContains (gasOutputFileName stem ts) stem = true ∧
    strContains (gasOutputFileName stem ts) ts = true ∧
    ((run_gas_analysis ts now contractName stem GasOutcome.timedOut).2 = []) ∧
    ((run_gas_analysis ts now contractName stem (GasOutcome.raised e)).2 = []) ∧
    strContains (mythrilOutputFileName stem ts) stem = true ∧
    strContains (mythrilOutputFileName stem ts) ts = true ∧
    strContains (slitherOutputFileName ts) ts = true := by
  intro ts now contractName stem out err e rc
  refine ⟨rfl, ?_, ?_, ?_, rfl, rfl, ?_, ?_, ?_⟩ <;>
    · apply strContains_of_isInfix
      simp only [gasOutputFileName, mythrilOutputFileName, slitherOutputFileName,
        String.data_append, List.append_assoc]
      repeat first
        | exact isInfix_extend_right _ (List.infix_refl _)
        | exact isInfix_extend_right _ (by decide)
        | apply isInfix_extend_left

/-- Claim C7: when the external process exits 0 but the structured output
file is malformed, the invoker returns a bare failure record carrying the
parse error as data (no exception propagates — the Lean model is total), that
run contributes zero findings, the session still completes with a report, and
in the summary script a Mythril report that fails to parse contributes
nothing to the issue total. -/
theorem claim_C7 : ∀ (ts out err e contractName stem now : String) (p : Prereqs)
    (fs : List String) (mo : String → MythOutcome) (go : String → GasOutcome)
    (rest : List (Option (List Issue))),
    (run_slither_analysis ts (SlitherOutcome.completed 0 out err true (Except.error e)) =
      { success := false, stdout := none, stderr := none, output_file := none,
        timestamp := none, findings := none, impacts := none, error := some e }) ∧
    ((run_slither_analysis ts
        (SlitherOutcome.completed 0 out err true (Except.error e))).findings.getD 0 = 0) ∧
    (run_mythril_analysis ts contractName stem
        (MythOutcome.completed 0 out err true (Except.error e)) =
      { success := false, stdout := none, stderr := none, output_file := none,
        timestamp := none, contract := some contractName, findings := none,
        issues := [], error := some e }) ∧
    (check_prerequisites p = true → (find_contract_files fs).isEmpty = false →
      (audit_contracts ts now p fs (SlitherOutcome.completed 0 out err true (Except.error e))
        mo go true true).success = true ∧
      (audit_contracts ts now p fs (SlitherOutcome.completed 0 out err true (Except.error e))
        mo go true true).reportText ≠ none) ∧
    summary_mythril_count (none :: rest) = summary_mythril_count rest := by
  intro ts out err e contractName stem now p fs mo go rest
  refine ⟨rfl, rfl, rfl, ?_, rfl⟩
  intro h1 h2
  simp [audit_contracts, h1, h2]

/-- Claim C7, witness: the parse-failure conjuncts of the theorem evaluated
on a concrete session with all tools present and two discovered contracts. -/
theorem claim_C7_witness :
    (audit_contracts "20250101_000000" "now" exPrereqsOk exFs
      (SlitherOutcome.completed 0 "" "" true (Except.error "Expecting value: line 1"))
      exMoTimeout exGo true true).success = true ∧
    (audit_contracts "20250101_000000" "now" exPrereqsOk exFs
      (SlitherOutcome.completed 0 "" "" true (Except.error "Expecting value: line 1"))
      exMoTimeout exGo true true).reportText ≠ none :=
  (claim_C7 "20250101_000000" "" "" "Expecting value: line 1" "c" "s" "now" exPrereqsOk
    exFs exMoTimeout exGo []).2.2.2.1 (by decide) (by decide)

theorem renderMythrilResult_header_isInfix (r : MythResult) :
    ("### " ++ r.contract.getD "Unknown" ++ "\n\n").data <:+: (renderMythrilResult r).data := by
  unfold renderMythrilResult
  rw [String.data_append]
  exact (List.prefix_append _ _).isInfix

theorem renderMythrilResult_isInfix_section {r : MythResult} {mres : List MythResult}
    (hr : r ∈ mres) :
    (renderMythrilResult r).data <:+: (renderMythrilSection mres).data := by
  have hne : mres.isEmpty = false := by
    cases mres
    · cases hr
    · rfl
  unfold renderMythrilSection
  rw [hne]
  simp only [Bool.false_eq_true, if_false, String.data_append]
  exact isInfix_extend_left _
    (mem_concatStrings_isInfix _ _ (List.mem_map_of_mem _ hr))

theorem mythrilSection_isInfix_report (now ts : String) (contractsCount : Nat)
    (sr : SlitherResult) (fileData : Option (List Detector)) (mres : List MythResult)
    (gres : List GasResult) :
    (renderMythrilSection mres).data <:+:
      (generate_comprehensive_report now ts contractsCount sr fileData mres gres).data := by
  unfold generate_comprehensive_report renderReportBody reportHeaderPre
  simp only [String.data_append, List.append_assoc]
  repeat first
    | exact isInfix_extend_right _ (List.infix_refl _)
    | apply isInfix_extend_left

/-- The bare failure record a timed-out Mythril invocation returns. -/
def timeoutMythResult (contractName : String) : MythResult :=
  { success := false, stdout := none, stderr := none, output_file := none,
    timestamp := none, contract := some contractName, findings := none,
    issues := [], error := some "timeout" }

/-- Claim C3: a timed-out Mythril invocation returns `success=false,
error="timeout"` (as a value — the model is total, nothing propagates), the
session still succeeds, the Mythril results are exactly the per-contract runs
in discovery order (so only the timed-out invocation is affected and every
other (tool, contract) combination is still attempted, including all the gas
runs), and every per-contract Mythril section — the timed-out one included —
appears in the rendered final report. -/
theorem claim_C3 : ∀ (ts now : String) (p : Prereqs) (fs : List String)
    (so : SlitherOutcome) (mo : String → MythOutcome) (go : String → GasOutcome)
    (c : String),
    check_prerequisites p = true →
    (find_contract_files fs).isEmpty = false →
    mo c = MythOutcome.timedOut →
    (run_mythril_analysis ts (fileName c) (pathStem c) (mo c) =
      timeoutMythResult (fileName c)) ∧
    ((audit_contracts ts now p fs so mo go true true).success = true) ∧
    ((audit_contracts ts now p fs so mo go true true).mythril_results =
      (find_contract_files fs).map
        (fun x => run_mythril_analysis ts (fileName x) (pathStem x) (mo x))) ∧
    ((audit_contracts ts now p fs so mo go true true).mythril_results.length =
      (find_contract_files fs).length) ∧
    ((audit_contracts ts now p fs so mo go true true).gas_results =
      (find_contract_files fs).map
        (fun x => (run_gas_analysis ts now (fileName x) (pathStem x) (go x)).1)) ∧
    (∀ r ∈ (audit_contracts ts now p fs so mo go true true).mythril_results,
      strContains ((audit_contracts ts now p fs so mo go true true).reportText.getD "")
        ("### " ++ r.contract.getD "Unknown" ++ "\n\n") = true) := by
  intro ts now p fs so mo go c h1 h2 h3
  refine ⟨by rw [h3]; rfl, ?_, ?_, ?_, ?_, ?_⟩ <;>
    simp only [audit_contracts, h1, h2, Bool.not_true, Bool.false_eq_true, if_false,
      if_true, List.length_map]
  intro r hr
  apply strContains_of_isInfix
  simp only [Option.getD_some]
  exact ((renderMythrilResult_header_isInfix r).trans
    (renderMythrilResult_isInfix_section hr)).trans
    (mythrilSection_isInfix_report now ts _ _ _ _ _)

/-- Claim C3, witness: a concrete two-contract session in which the Mythril
run on TokenA times out; its hypotheses are discharged by evaluation and the
conclusion is the theorem's, projected at that session. -/
theorem claim_C3_witness :
    (run_mythril_analysis "20250101_000000" (fileName "contracts/TokenA.sol")
      (pathStem "contracts/TokenA.sol") (exMoTimeout "contracts/TokenA.sol") =
      timeoutMythResult (fileName "contracts/TokenA.sol")) ∧
    (audit_contracts "20250101_000000" "now" exPrereqsOk exFs exSo exMoTimeout exGo
      true true).success = true ∧
    (audit_contracts "20250101_000000" "now" exPrereqsOk exFs exSo exMoTimeout exGo
      true true).mythril_results.length = (find_contract_files exFs).length :=
  ⟨(claim_C3 "20250101_000000" "now" exPrereqsOk exFs exSo exMoTimeout exGo
      "contracts/TokenA.sol" (by decide) (by decide) rfl).1,
   (claim_C3 "20250101_000000" "now" exPrereqsOk exFs exSo exMoTimeout exGo
      "contracts/TokenA.sol" (by decide) (by decide) rfl).2.1,
   (claim_C3 "20250101_000000" "now" exPrereqsOk exFs exSo exMoTimeout exGo
      "contracts/TokenA.sol" (by decide) (by decide) rfl).2.2.2.1⟩

theorem enumFrom_length {α : Type} : ∀ (i : Nat) (l : List α),
    (enumFrom i l).length = l.length := by
  intro i l
  induction l generalizing i with
  | nil => rfl
  | cons a t ih => simp [enumFrom, ih]

theorem impact_isInfix_renderSlitherFinding (i : Nat) (d : Detector) :
    (d.impact.getD "Unknown").data <:+: (renderSlitherFinding i d).data := by
  unfold renderSlitherFinding
  simp only [String.data_append, List.append_assoc]
  repeat first
    | exact isInfix_extend_right _ (List.infix_refl _)
    | apply isInfix_extend_left

theorem confidence_isInfix_renderSlitherFinding (i : Nat) (d : Detector) :
    (d.confidence.getD "Unknown").data <:+: (renderSlitherFinding i d).data := by
  unfold renderSlitherFinding
  simp only [String.data_append, List.append_assoc]
  repeat first
    | exact isInfix_extend_right _ (List.infix_refl _)
    | apply isInfix_extend_left

theorem description_isInfix_renderSlitherFinding (i : Nat) (d : Detector) :
    (d.description.getD "No description").data <:+: (renderSlitherFinding i d).data := by
  unfold renderSlitherFinding
  simp only [String.data_append, List.append_assoc]
  repeat first
    | exact isInfix_extend_right _ (List.infix_refl _)
    | apply isInfix_extend_left

theorem severity_isInfix_renderMythrilIssue (i : Nat) (iss : Issue) :
    (iss.severity.getD "Unknown").data <:+: (renderMythrilIssue i iss).data := by
  unfold renderMythrilIssue
  simp only [String.data_append, List.append_assoc]
  repeat first
    | exact isInfix_extend_right _ (List.infix_refl _)
    | apply isInfix_extend_left

theorem description_isInfix_renderMythrilIssue (i : Nat) (iss : Issue) :
    (iss.description.getD "No description").data <:+: (renderMythrilIssue i iss).data := by
  unfold renderMythrilIssue
  simp only [String.data_append, List.append_assoc]
  repeat first
    | exact isInfix_extend_right _ (List.infix_refl _)
    | apply isInfix_extend_left

theorem renderMythLocation_isInfix (i : Nat) (iss : Issue) (loc : MythLocation)
    (hloc : loc ∈ iss.locations) :
    (renderMythLocation loc).data <:+: (renderMythrilIssue i iss).data := by
  have hne : iss.locations.isEmpty = false := by
    cases h : iss.locations
    · rw [h] at hloc; cases hloc
    · rfl
  unfold renderMythrilIssue
  rw [hne]
  simp only [Bool.false_eq_true, if_false, String.data_append, List.append_assoc]
  repeat first
    | exact isInfix_extend_right _ (mem_concatStrings_isInfix _ _ (List.mem_map_of_mem _ hloc))
    | apply isInfix_extend_left

theorem renderSlitherElement_isInfix (i : Nat) (d : Detector) (e : Element)
    (he : e ∈ d.elements.take 3) :
    (renderSlitherElement e).data <:+: (renderSlitherFinding i d).data := by
  have hmem : e ∈ d.elements := List.take_subset _ _ he
  have hne : d.elements.isEmpty = false := by
    cases h : d.elements
    · rw [h] at hmem; cases hmem
    · rfl
  unfold renderSlitherFinding
  rw [hne]
  simp only [Bool.false_eq_true, if_false, String.data_append, List.append_assoc]
  repeat first
    | exact isInfix_extend_right _ (mem_concatStrings_isInfix _ _ (List.mem_map_of_mem _ he))
    | apply isInfix_extend_left

/-- Example Mythril issue location. -/
def exLoc : MythLocation :=
  { start_line := some 7, source_map := some "a.sol:7:1" }

/-- Example Mythril issue whose raw record carries a confidence value. -/
def exIssueConf : Issue :=
  { title := some "Integer Overflow", severity := some "High",
    description := some "Unchecked add", locations := [exLoc],
    confidence := some "ZWQConf" }

/-- Claim C5, counterexample: the rendered text of a concrete Mythril issue
does not contain its confidence value anywhere — the report generator renders
severity, description and locations of a Mythril issue but never its
confidence. -/
theorem claim_C5_cex :
    exIssueConf.confidence = some "ZWQConf" ∧
    strContains (renderMythrilIssue 1 exIssueConf) "ZWQConf" = false ∧
    strContains (renderMythrilIssue 1 exIssueConf) "High" = true := by
  refine ⟨rfl, by decide, by decide⟩

/-- Claim C5 (amended): the comprehensive report renders at most 10 Slither
findings (the first 10, numbered from 1 — Slither runs once over the whole
directory) and at most 5 Mythril issues per contract (the first 5).  Every
rendered Slither finding carries its impact, confidence, description and the
file names of its first 3 elements with a source mapping; every rendered
Mythril issue carries its severity, description and all its location lines —
but not its confidence, which is never rendered. -/
theorem claim_C5 : ∀ (ds : List Detector) (r : MythResult) (i : Nat) (d : Detector)
    (iss : Issue),
    (renderedSlitherFindings ds).length ≤ 10 ∧
    renderedSlitherFindings ds =
      (enumFrom 1 (ds.take 10)).map (fun p => renderSlitherFinding p.1 p.2) ∧
    (renderedMythrilIssues r).length ≤ 5 ∧
    renderedMythrilIssues r =
      (enumFrom 1 (r.issues.take 5)).map (fun p => renderMythrilIssue p.1 p.2) ∧
    strContains (renderSlitherFinding i d) (d.impact.getD "Unknown") = true ∧
    strContains (renderSlitherFinding i d) (d.confidence.getD "Unknown") = true ∧
    strContains (renderSlitherFinding i d) (d.description.getD "No description") = true ∧
    (∀ e ∈ d.elements.take 3, ∀ sm : SourceMapping, e.source_mapping = some sm →
      strContains (renderSlitherFinding i d) ("- `" ++ sm.filename ++ "`\n") = true) ∧
    strContains (renderMythrilIssue i iss) (iss.severity.getD "Unknown") = true ∧
    strContains (renderMythrilIssue i iss) (iss.description.getD "No description") = true ∧
    (∀ loc ∈ iss.locations,
      strContains (renderMythrilIssue i iss) (renderMythLocation loc) = true) := by
  intro ds r i d iss
  refine ⟨?_, rfl, ?_, rfl, ?_, ?_, ?_, ?_, ?_, ?_, ?_⟩
  · rw [renderedSlitherFindings, List.length_map, enumFrom_length]
    exact List.length_take_le 10 ds
  · rw [renderedMythrilIssues, List.length_map, enumFrom_length]
    exact List.length_take_le 5 r.issues
  · exact strContains_of_isInfix (impact_isInfix_renderSlitherFinding i d)
  · exact strContains_of_isInfix (confidence_isInfix_renderSlitherFinding i d)
  · exact strContains_of_isInfix (description_isInfix_renderSlitherFinding i d)
  · intro e he sm hsm
    apply strContains_of_isInfix
    have h := renderSlitherElement_isInfix i d e he
    rw [renderSlitherElement, hsm] at h
    exact h
  · exact strContains_of_isInfix (severity_isInfix_renderMythrilIssue i iss)
  · exact strContains_of_isInfix (description_isInfix_renderMythrilIssue i iss)
  · intro loc hloc
    exact strContains_of_isInfix (renderMythLocation_isInfix i iss loc hloc)

/-- Claim C5, witness: the field-presence conjuncts of the theorem evaluated
on the concrete "High" detector and the concrete issue with its location. -/
theorem claim_C5_witness :
    strContains (renderSlitherFinding 1 exDetHigh) "High" = true ∧
    strContains (renderMythrilIssue 2 exIssueConf) (renderMythLocation exLoc) = true :=
  ⟨(claim_C5 [] (timeoutMythResult "x") 1 exDetHigh exIssueConf).2.2.2.2.1,
   (claim_C5 [] (timeoutMythResult "x") 2 exDetHigh
      exIssueConf).2.2.2.2.2.2.2.2.2.2 exLoc (by decide)⟩
